import Mathlib

/-!
Verification of the Qariee CLI (Quran-recitation content-management tool)
against its design specification.

The development shallowly embeds the core subsystems of the repository:

* `download_file` (src/backend/cli/qariee_cli/utils/download.py) — the
  retry-aware fetcher, modelled as a function of an environment assigning
  to each attempt number the outcome of that HTTP attempt, returning a
  trace of the call (result, attempts used, sleep time, filesystem effects).
* the `verify` command's concurrent scanner/aggregator
  (src/backend/cli/qariee_cli/commands/verify.py) — modelled as a fold
  over the probe-completion order.
* the `upload_audio` transfer orchestrator
  (src/backend/cli/qariee_cli/commands/upload_audio.py).
* the catalog document operations `add_reciter` / `increment_version`
  (src/backend/cli/qariee_cli/utils/db_json.py).
-/

namespace Qariee

/-! ## Retry-aware fetcher (utils/download.py) -/

/-- Constant `MAX_RETRIES = 3` from download.py. -/
def MAX_RETRIES : Nat := 3

/-- Constant `RETRY_DELAY = 2` (seconds) from download.py. -/
def RETRY_DELAY : Nat := 2

/-- Outcome of one HTTP attempt inside `download_file`, as seen by the
Python code:

* `notFound` — the response arrived with status 404
  (`response.status_code == 404` branch);
* `okResp` — the response had a success status and the whole body streamed
  to disk without fault;
* `httpError` — `response.raise_for_status()` raised (non-404 error
  status; `httpx.HTTPStatusError` is an `httpx.HTTPError`, so it is caught);
* `netFault` — an `httpx.HTTPError`/`httpx.TimeoutException` raised before
  any filesystem activity (connect/read failure before the body write);
* `streamFault` — such a fault raised while streaming the body, after the
  parent directory was made and a partial body was written to `dest`. -/
inductive AttemptResult where
  | notFound
  | okResp
  | httpError
  | netFault
  | streamFault
deriving DecidableEq, Repr

/-- An attempt outcome that download.py treats as transient: the attempt
raised an exception caught by the `except (httpx.HTTPError,
httpx.TimeoutException)` handler. -/
def AttemptResult.transient : AttemptResult → Bool
  | .httpError => true
  | .netFault => true
  | .streamFault => true
  | .notFound => false
  | .okResp => false

/-- Observable trace of one `download_file` call:
the returned boolean, the number of HTTP attempts issued, the total time
slept in `time.sleep(RETRY_DELAY)` calls, the number of
`dest.parent.mkdir` calls, and whether any bytes were written to `dest`
(a full body or a partial body left by a faulted stream). -/
structure FetchTrace where
  success : Bool
  attempts : Nat
  sleepTime : Nat
  mkdirCalls : Nat
  destWritten : Bool
deriving DecidableEq, Repr

/-- Body of the `for attempt in range(1, MAX_RETRIES + 1)` loop of
`download_file`, for the current `attempt` number with `remaining`
loop iterations left. The environment `env` assigns to each attempt
number the outcome of its HTTP attempt. -/
def downloadFileAux (env : Nat → AttemptResult) : Nat → Nat → FetchTrace
  | _, 0 => ⟨false, 0, 0, 0, false⟩
  | attempt, remaining + 1 =>
    match env attempt with
    | .notFound => ⟨false, 1, 0, 0, false⟩
    | .okResp => ⟨true, 1, 0, 1, true⟩
    | .httpError =>
      if attempt < MAX_RETRIES then
        let t := downloadFileAux env (attempt + 1) remaining
        ⟨t.success, t.attempts + 1, t.sleepTime + RETRY_DELAY, t.mkdirCalls, t.destWritten⟩
      else ⟨false, 1, 0, 0, false⟩
    | .netFault =>
      if attempt < MAX_RETRIES then
        let t := downloadFileAux env (attempt + 1) remaining
        ⟨t.success, t.attempts + 1, t.sleepTime + RETRY_DELAY, t.mkdirCalls, t.destWritten⟩
      else ⟨false, 1, 0, 0, false⟩
    | .streamFault =>
      if attempt < MAX_RETRIES then
        let t := downloadFileAux env (attempt + 1) remaining
        ⟨t.success, t.attempts + 1, t.sleepTime + RETRY_DELAY, t.mkdirCalls + 1, true⟩
      else ⟨false, 1, 0, 1, true⟩

/-- The function `download_file(url, dest)` from download.py, as a function of the
environment of attempt outcomes. Attempt numbers start at 1 and the loop
runs at most `MAX_RETRIES` iterations. -/
def downloadFile (env : Nat → AttemptResult) : FetchTrace :=
  downloadFileAux env 1 MAX_RETRIES

/-! ## Concurrent scanner and coverage aggregation (commands/verify.py)

The audio-verification loop of `verify` submits one `check_url` probe per
`(reciter_id, surah_num)` pair and consumes the futures with
`concurrent.futures.as_completed`, i.e. in an arbitrary completion order.
We model a run of the loop as the list of completed probe events in their
completion order, and the aggregation body as a fold over that list. -/

/-- Outcome of retrieving one audio probe's `future.result()` in the
`as_completed` loop: either the probe completed and `exists` was the
boolean returned by `check_url` (`okProbe found`), or `future.result()`
raised and the `except Exception` branch ran (`exc`). -/
inductive ProbeOutcome where
  | okProbe (found : Bool)
  | exc
deriving DecidableEq, Repr

/-- One completed audio probe, as consumed by the `as_completed` loop:
`future_to_surah[future]` gives `(reciter_id, surah_num)`, and `outcome`
says what `future.result()` did. -/
structure AudioEvent where
  reciter : String
  surah : Nat
  outcome : ProbeOutcome
deriving DecidableEq, Repr

/-- Whether the event counts as present: only a probe that completed with
`exists = True` does; a failed probe and a raising future both land in the
missing list. -/
def AudioEvent.present (e : AudioEvent) : Bool :=
  match e.outcome with
  | .okProbe found => found
  | .exc => false

/-- The Python dict `audio_results: reciter_id -> [present_count,
missing_surahs]`, as an insertion-ordered association list. -/
abbrev AudioMap := List (String × Nat × List Nat)

/-- Lookup in `audio_results` (`audio_results[reciter_id]`). -/
def lookupA : AudioMap → String → Option (Nat × List Nat)
  | [], _ => none
  | (k, v) :: rest, r => if k = r then some v else lookupA rest r

/-- Effect of one event on one reciter's `[present_count, missing]` cell:
`audio_results[reciter_id][0] += 1` when present, otherwise
`audio_results[reciter_id][1].append(surah_num)`. -/
def bumpCell (v : Nat × List Nat) (e : AudioEvent) : Nat × List Nat :=
  if e.present then (v.1 + 1, v.2) else (v.1, v.2 ++ [e.surah])

/-- One iteration of the `as_completed` loop on `audio_results`: ensure
the reciter's entry exists (`audio_results[reciter_id] = [0, []]` on first
sight, which appends the key at the end of the dict), then update it. -/
def stepAudio : AudioMap → AudioEvent → AudioMap
  | [], e => [(e.reciter, bumpCell (0, []) e)]
  | (k, v) :: rest, e =>
    if k = e.reciter then (k, bumpCell v e) :: rest
    else (k, v) :: stepAudio rest e

/-- The whole `as_completed` aggregation loop: fold the loop body over the
probe events in completion order, starting from the empty dict. -/
def aggregateAudio (events : List AudioEvent) : AudioMap :=
  events.foldl stepAudio []

/-- The per-reciter row of the audio results table (verify.py lines
161-166): the reciter's `audio_results` entry when present, otherwise
`(0, list(range(1, 115)))`. -/
def reciterReport (m : AudioMap) (r : String) : Nat × List Nat :=
  (lookupA m r).getD (0, List.range' 1 114)

/-- Specification-side view: the number of the reciter's probes that
completed present, read off the event list. -/
def presentCount (events : List AudioEvent) (r : String) : Nat :=
  (events.filter (fun e => e.reciter == r && e.present)).length

/-- Specification-side view: the reciter's non-present surah numbers in
completion order, read off the event list. -/
def missingOf (events : List AudioEvent) (r : String) : List Nat :=
  (events.filter (fun e => e.reciter == r && !e.present)).map AudioEvent.surah

/-- Total number of probe outcomes recorded in `audio_results`: every loop
iteration either increments a present counter or appends one missing surah,
so this is the number of consumed futures. -/
def totalOutcomes (m : AudioMap) : Nat :=
  (m.map fun kv => kv.2.1 + kv.2.2.length).sum

/-! ### Image scan (verify.py lines 54-100) -/

/-- One completed image probe, as consumed by the image `as_completed`
loop: the reciter id, and the result of `future.result()` — `some (found,
status)` when `check_url` returned `(exists, status_code)`, `none` when
the future raised and the `except Exception` branch ran. -/
structure ImageEvent where
  reciter : String
  outcome : Option (Bool × Option Nat)
deriving DecidableEq, Repr

/-- One iteration of the image `as_completed` loop on the `image_results`
list: append `(reciter_id, exists, status_code)` on success, and
`(reciter_id, False, None)` when the future raised. -/
def stepImage (acc : List (String × Bool × Option Nat)) (e : ImageEvent) :
    List (String × Bool × Option Nat) :=
  match e.outcome with
  | some (found, status) => acc ++ [(e.reciter, found, status)]
  | none => acc ++ [(e.reciter, false, none)]

/-- The whole image aggregation loop over the probe-completion order. -/
def aggregateImage (events : List ImageEvent) : List (String × Bool × Option Nat) :=
  events.foldl stepImage []

/-- The count `missing_images` from verify.py lines 94-100: entries of
`image_results` whose `exists` flag is false. -/
def missingImages (results : List (String × Bool × Option Nat)) : Nat :=
  (results.filter fun t => !t.2.1).length

/-! ### Verify summary and exit status (verify.py lines 158-188) -/

/-- The count `total_missing` from verify.py lines 159-170: the sum, over the
catalog's reciters, of the length of each reciter's missing list (a
reciter with no `audio_results` entry counts `list(range(1, 115))`). -/
def totalMissing (catalog : List String) (audioEvents : List AudioEvent) : Nat :=
  (catalog.map fun r => (reciterReport (aggregateAudio audioEvents) r).2.length).sum

/-- Process exit status of the `verify` command: `typer.Exit(1)` is raised
iff `total_missing > 0` (verify.py lines 183-186); a missing image only
prints a warning (lines 104-106). An empty catalog returns early (exit 0). -/
def verifyExitCode (catalog : List String) (audioEvents : List AudioEvent) : Nat :=
  if totalMissing catalog audioEvents > 0 then 1 else 0

/-! ## Transfer orchestrator (commands/upload_audio.py) -/

/-- Environment of one live transfer item: the outcomes the network hands
each `download_file` attempt for this surah, and whether `upload_to_r2`
would succeed for the staged file. -/
structure ItemEnv where
  fetch : Nat → AttemptResult
  uploadOk : Bool

/-- Observable outcome of processing one live item in the
`for surah_num in range(start, end + 1)` loop (upload_audio.py lines
88-102): whether it counted as success, how many network calls it issued
(download attempts plus the upload, if reached), and whether the item's
staging file `temp_dir / f"{surah_str}.mp3"` still exists once the item's
outcome is recorded. -/
structure ItemResult where
  succeeded : Bool
  netCalls : Nat
  fileRemains : Bool
deriving DecidableEq, Repr

/-- Live processing of one item: download to the staging file; on download
success upload to R2 (success or failure) and then
`local_file.unlink(missing_ok=True)`; on download failure count a failure
and leave the staging path untouched (no unlink on that branch — the file
exists iff a download attempt wrote to it). -/
def processItem (e : ItemEnv) : ItemResult :=
  let t := downloadFile e.fetch
  if t.success then
    { succeeded := e.uploadOk, netCalls := t.attempts + 1, fileRemains := false }
  else
    { succeeded := false, netCalls := t.attempts, fileRemains := t.destWritten }

/-- The `success_count`/`fail_count`/`skipped_count` accumulators of
`upload_audio`. -/
structure RunSummary where
  success : Nat
  fail : Nat
  skipped : Nat
deriving DecidableEq, Repr

/-- State threaded through the surah loop: the summary counters, the
number of network calls issued so far, and the surah numbers whose staging
file currently exists in the temp directory. -/
structure RunState where
  summary : RunSummary
  netCalls : Nat
  staged : List Nat
deriving DecidableEq, Repr

/-- The surah loop of `upload_audio` over the listed surah numbers. In
dry-run mode each item just increments `success_count`; in live mode each
item is processed against its environment. -/
def runItems (dryRun : Bool) (env : Nat → ItemEnv) :
    List Nat → RunState → RunState
  | [], st => st
  | s :: rest, st =>
    if dryRun then
      runItems dryRun env rest
        { st with summary := { st.summary with success := st.summary.success + 1 } }
    else
      let r := processItem (env s)
      runItems dryRun env rest
        { summary :=
            if r.succeeded then { st.summary with success := st.summary.success + 1 }
            else { st.summary with fail := st.summary.fail + 1 },
          netCalls := st.netCalls + r.netCalls,
          staged := if r.fileRemains then st.staged ++ [s] else st.staged }

/-- Result of one whole `upload_audio` run. -/
structure RunOutcome where
  summary : RunSummary
  netCalls : Nat
  stagedAfterRun : List Nat
  exitCode : Nat
deriving DecidableEq, Repr

/-- The `upload_audio` command (upload_audio.py). `none` models an early
`typer.Exit(1)`: an invalid surah range (line 42-44), or live mode without
the wrangler CLI (lines 47-50). Otherwise the loop runs over
`range(start, end + 1)`, the `finally` block removes the whole temp
directory (`shutil.rmtree`, line 108), and the exit code is 1 iff
`fail_count > 0` (lines 118-119). -/
def runTransfer (dryRun wranglerOk : Bool) (start endS : Nat)
    (env : Nat → ItemEnv) : Option RunOutcome :=
  if ¬(1 ≤ start ∧ start ≤ 114 ∧ 1 ≤ endS ∧ endS ≤ 114 ∧ start ≤ endS) then
    none
  else if !dryRun && !wranglerOk then
    none
  else
    let st := runItems dryRun env (List.range' start (endS - start + 1))
      ⟨⟨0, 0, 0⟩, 0, []⟩
    some { summary := st.summary, netCalls := st.netCalls, stagedAfterRun := [],
           exitCode := if st.summary.fail > 0 then 1 else 0 }

/-! ## Catalog document operations (utils/db_json.py) -/

/-- The `Reciter` TypedDict of db_json.py. -/
structure Reciter where
  id : String
  name_en : String
  name_ar : String
  color_primary : String
  color_secondary : String
deriving DecidableEq, Repr

/-- The `Settings` TypedDict of db_json.py. -/
structure Settings where
  cdn_base_url : String
  app_name : String
  support_email : String
  app_version : String
  min_app_version : String
deriving DecidableEq, Repr

/-- The `DbJson` TypedDict of db_json.py: the persisted catalog document. -/
structure DbJson where
  version : String
  settings : Settings
  reciters : List Reciter
deriving DecidableEq, Repr

/-- Python's `version.split(".")` on the character list of the string:
always returns at least one (possibly empty) part. -/
def splitDots : List Char → List (List Char)
  | [] => [[]]
  | c :: rest =>
    match splitDots rest with
    | [] => [[]]
    | p :: ps => if c = '.' then [] :: p :: ps else (c :: p) :: ps

/-- Python's `int(...)` on one version component, for the canonical
nonnegative decimal components catalog versions carry (such as `"1.0.0"`):
a nonempty all-digit string parses to its value, anything else models the
`ValueError` as `none`. -/
def parseNatAux : List Char → Nat → Option Nat
  | [], acc => some acc
  | c :: cs, acc =>
    if c.isDigit then parseNatAux cs (acc * 10 + (c.toNat - Char.toNat '0'))
    else none

/-- Parse a version component; the empty string raises in Python too. -/
def parseComponent : List Char → Option Nat
  | [] => none
  | cs => parseNatAux cs 0

/-- Python's `".".join(parts)`. -/
def joinDots : List (List Char) → List Char
  | [] => []
  | [p] => p
  | p :: ps => p ++ '.' :: joinDots ps

/-- The function `increment_version` of db_json.py: split on `"."`, parse the
last component with `int(...)`, add one (`str(...)` renders it back in
decimal), re-join with `"."`. The `none` case models `int()` raising
`ValueError`. -/
def increment_version (version : String) : Option String :=
  let parts := splitDots version.data
  match parts.getLast?.bind parseComponent with
  | none => none
  | some n =>
    some (String.mk (joinDots (parts.dropLast ++ [(Nat.repr (n + 1)).data])))

/-- Errors `add_reciter` can raise: the named duplicate-id `ValueError`,
or a `ValueError` escaping from `int()` during the version bump. -/
inductive AddReciterError where
  | duplicateId (id : String)
  | badVersion (version : String)
deriving DecidableEq, Repr

instance exceptDecEq {ε α : Type} [DecidableEq ε] [DecidableEq α] :
    DecidableEq (Except ε α) := fun a b =>
  match a, b with
  | .error x, .error y =>
    if h : x = y then isTrue (h ▸ rfl)
    else isFalse fun hc => h (by injection hc)
  | .error _, .ok _ => isFalse fun hc => Except.noConfusion hc
  | .ok _, .error _ => isFalse fun hc => Except.noConfusion hc
  | .ok x, .ok y =>
    if h : x = y then isTrue (h ▸ rfl)
    else isFalse fun hc => h (by injection hc)

/-- The function `add_reciter` of db_json.py acting on the persisted
document: read, reject a duplicate id with the named error, otherwise
append the reciter, bump the patch version, and write. An error means the
exception propagated before `write_db_json` ran. -/
def add_reciter (db : DbJson) (r : Reciter) : Except AddReciterError DbJson :=
  if db.reciters.any fun e => e.id == r.id then
    .error (.duplicateId r.id)
  else
    match increment_version db.version with
    | none => .error (.badVersion db.version)
    | some v => .ok { version := v, settings := db.settings, reciters := db.reciters ++ [r] }

/-- The persisted document after calling `add_reciter`: unchanged when the
call raised (the write never runs), the new document otherwise. -/
def persistedAfterAdd (db : DbJson) (r : Reciter) : DbJson :=
  match add_reciter db r with
  | .error _ => db
  | .ok d => d

/-! ## Sample data for concrete runs -/

/-- Sample settings block of a catalog document. -/
def sampleSettings : Settings :=
  ⟨"https://cdn.qariee.example", "Qariee", "support@qariee.example", "1.0.0", "1.0.0"⟩

/-- A catalog document with one reciter and version "1.0.0". -/
def sampleDb : DbJson :=
  { version := "1.0.0", settings := sampleSettings,
    reciters := [⟨"a", "Reciter A", "A", "#000000", "#ffffff"⟩] }

/-- A reciter whose id is fresh for `sampleDb`. -/
def reciterB : Reciter := ⟨"b", "Reciter B", "B", "#111111", "#222222"⟩

/-- A reciter reusing the id already present in `sampleDb`. -/
def reciterDupA : Reciter := ⟨"a", "Other A", "A2", "#333333", "#444444"⟩

/-! ## Supporting lemmas -/

/-- A 404 on the first attempt returns `False` after exactly one attempt,
with no sleep and no filesystem activity. -/
theorem downloadFile_notFound (env : Nat → AttemptResult)
    (h : env 1 = AttemptResult.notFound) :
    downloadFile env = ⟨false, 1, 0, 0, false⟩ := by
  simp [downloadFile, downloadFileAux, MAX_RETRIES, h]

/-- If every one of the three attempts is transient, the call returns
`False` after exactly `MAX_RETRIES = 3` attempts with two
`RETRY_DELAY`-second sleeps. -/
theorem downloadFile_allTransient (env : Nat → AttemptResult)
    (h1 : (env 1).transient = true) (h2 : (env 2).transient = true)
    (h3 : (env 3).transient = true) :
    (downloadFile env).success = false ∧ (downloadFile env).attempts = 3 ∧
      (downloadFile env).sleepTime = 2 * RETRY_DELAY := by
  cases e1 : env 1 <;> simp [e1, AttemptResult.transient] at h1 <;>
    cases e2 : env 2 <;> simp [e2, AttemptResult.transient] at h2 <;>
      cases e3 : env 3 <;> simp [e3, AttemptResult.transient] at h3 <;>
        simp [downloadFile, downloadFileAux, MAX_RETRIES, RETRY_DELAY, e1, e2, e3]

/-- Two transient attempts followed by a clean attempt return `True` on
the third attempt, after two sleeps. -/
theorem downloadFile_thirdTry (env : Nat → AttemptResult)
    (h1 : (env 1).transient = true) (h2 : (env 2).transient = true)
    (h3 : env 3 = AttemptResult.okResp) :
    (downloadFile env).success = true ∧ (downloadFile env).attempts = 3 ∧
      (downloadFile env).sleepTime = 2 * RETRY_DELAY := by
  cases e1 : env 1 <;> simp [e1, AttemptResult.transient] at h1 <;>
    cases e2 : env 2 <;> simp [e2, AttemptResult.transient] at h2 <;>
      simp [downloadFile, downloadFileAux, MAX_RETRIES, RETRY_DELAY, e1, e2, h3]

theorem lookupA_stepAudio (m : AudioMap) (e : AudioEvent) (r : String) :
    lookupA (stepAudio m e) r =
      if e.reciter = r then some (bumpCell ((lookupA m e.reciter).getD (0, [])) e)
      else lookupA m r := by
  induction m with
  | nil =>
    by_cases h : e.reciter = r <;> simp [stepAudio, lookupA, h]
  | cons kv rest ih =>
    obtain ⟨k, v⟩ := kv
    by_cases hk : k = e.reciter
    · by_cases h : e.reciter = r
      · simp [stepAudio, lookupA, hk, h, hk.trans h]
      · have hkr : ¬k = r := fun hh => h (hk ▸ hh)
        simp [stepAudio, lookupA, hk, h, hkr]
    · by_cases h : k = r
      · have her : ¬e.reciter = r := fun hh => hk (h.trans hh.symm)
        have hre : ¬r = e.reciter := fun hh => her hh.symm
        simp [stepAudio, lookupA, hk, h, her, hre]
      · simp [stepAudio, lookupA, hk, h, ih]

/-- Master invariant of the aggregation loop: after processing the events,
a reciter's `audio_results` entry exists iff the reciter had at least one
event, and then holds exactly its present count and its non-present surah
numbers in completion order. -/
theorem lookupA_aggregateAudio (events : List AudioEvent) (r : String) :
    lookupA (aggregateAudio events) r =
      if events.any (fun e => e.reciter == r) then
        some (presentCount events r, missingOf events r)
      else none := by
  induction events using List.reverseRecOn with
  | nil => simp [aggregateAudio, lookupA]
  | append_singleton L e ih =>
    have hfold : aggregateAudio (L ++ [e]) = stepAudio (aggregateAudio L) e := by
      simp [aggregateAudio]
    rw [hfold, lookupA_stepAudio]
    by_cases hr : e.reciter = r
    · subst hr
      rw [if_pos rfl, ih]
      have hany : ((L ++ [e]).any fun x => x.reciter == e.reciter) = true := by
        simp [List.any_append]
      rw [if_pos hany]
      by_cases hL : (L.any fun x => x.reciter == e.reciter) = true
      · rw [if_pos hL]
        cases hp : e.present <;>
          simp [bumpCell, hp, presentCount, missingOf, List.filter_append]
      · rw [if_neg hL]
        have hL' : (L.any fun x => x.reciter == e.reciter) = false :=
          Bool.eq_false_iff.mpr hL
        rw [List.any_eq_false] at hL'
        have hfilt : ∀ q : AudioEvent → Bool,
            (L.filter fun x => (x.reciter == e.reciter) && q x) = [] := by
          intro q
          rw [List.filter_eq_nil_iff]
          intro x hx hcontra
          exact hL' x hx (Bool.and_elim_left hcontra)
        cases hp : e.present <;>
          simp [bumpCell, hp, presentCount, missingOf, List.filter_append,
            hfilt fun x => x.present, hfilt fun x => !x.present]
    · rw [if_neg hr, ih]
      have hbeq : (e.reciter == r) = false := by
        simpa using hr
      have hany_eq : ((L ++ [e]).any fun x => x.reciter == r) =
          (L.any fun x => x.reciter == r) := by
        simp [List.any_append, hbeq]
      rw [hany_eq]
      by_cases hL : (L.any fun x => x.reciter == r) = true
      · rw [if_pos hL, if_pos hL]
        have hpc : presentCount (L ++ [e]) r = presentCount L r := by
          simp [presentCount, List.filter_append, hbeq]
        have hmo : missingOf (L ++ [e]) r = missingOf L r := by
          simp [missingOf, List.filter_append, hbeq]
        rw [hpc, hmo]
      · rw [if_neg hL, if_neg hL]

theorem totalOutcomes_stepAudio (m : AudioMap) (e : AudioEvent) :
    totalOutcomes (stepAudio m e) = totalOutcomes m + 1 := by
  induction m with
  | nil => cases hp : e.present <;> simp [stepAudio, totalOutcomes, bumpCell, hp]
  | cons kv rest ih =>
    obtain ⟨k, v⟩ := kv
    by_cases hk : k = e.reciter
    · cases hp : e.present <;>
        simp [stepAudio, totalOutcomes, bumpCell, hk, hp] <;> omega
    · simp only [stepAudio, if_neg hk, totalOutcomes, List.map_cons, List.sum_cons]
      have := ih
      simp only [totalOutcomes] at this
      omega

/-- Every consumed future records exactly one outcome: the sum over the
`audio_results` entries of `present_count + len(missing)` equals the number
of events processed. -/
theorem totalOutcomes_aggregateAudio (events : List AudioEvent) :
    totalOutcomes (aggregateAudio events) = events.length := by
  induction events using List.reverseRecOn with
  | nil => simp [aggregateAudio, totalOutcomes]
  | append_singleton L e ih =>
    have hfold : aggregateAudio (L ++ [e]) = stepAudio (aggregateAudio L) e := by
      simp [aggregateAudio]
    rw [hfold, totalOutcomes_stepAudio, ih]
    simp

/-- Permutations leave `List.any` unchanged. -/
theorem any_of_perm {α : Type} {l1 l2 : List α} (p : α → Bool)
    (h : l1.Perm l2) : l1.any p = l2.any p := by
  rcases h1 : l1.any p with _ | _ <;> rcases h2 : l2.any p with _ | _ <;> try rfl
  · rw [List.any_eq_false] at h1
    rw [List.any_eq_true] at h2
    obtain ⟨x, hx, hp⟩ := h2
    exact absurd hp (h1 x (h.mem_iff.mpr hx))
  · rw [List.any_eq_false] at h2
    rw [List.any_eq_true] at h1
    obtain ⟨x, hx, hp⟩ := h1
    exact absurd hp (h2 x (h.mem_iff.mp hx))

/-- The aggregation step only reads the event's reciter, surah number and
presence flag; in particular a raising future is handled exactly like a
probe that completed absent. -/
theorem stepAudio_congr (m : AudioMap) (e e' : AudioEvent)
    (hr : e.reciter = e'.reciter) (hs : e.surah = e'.surah)
    (hp : e.present = e'.present) :
    stepAudio m e = stepAudio m e' := by
  have hbump : ∀ v, bumpCell v e = bumpCell v e' := by
    intro v
    simp [bumpCell, hs, hp]
  induction m with
  | nil => simp [stepAudio, hr, hbump]
  | cons kv rest ih =>
    obtain ⟨k, v⟩ := kv
    by_cases hk : k = e'.reciter
    · simp [stepAudio, hr, hk, hbump]
    · simp [stepAudio, hr, hk, ih]

/-- The dry-run surah loop increments `success_count` once per item and
touches nothing else. -/
theorem runItems_dry (env : Nat → ItemEnv) (l : List Nat) (st : RunState) :
    runItems true env l st =
      { st with summary :=
          { st.summary with success := st.summary.success + l.length } } := by
  induction l generalizing st with
  | nil => simp [runItems]
  | cons s rest ih =>
    rw [runItems, if_pos rfl, ih]
    simp [Nat.add_assoc, Nat.add_comm 1 rest.length]

/-! ## Claims -/

/-- C2: Retry-aware fetch. A 404 response on the first attempt makes
`download_file` return False after exactly one attempt with no retry and
no retry delay; when every attempt hits another HTTP error status or a
network/timeout fault it retries up to 3 total attempts with a fixed
2-second inter-attempt delay and returns False after exhausting them; two
transient failures followed by a successful response return True on the
third attempt. -/
theorem C2_retryAwareFetch (env : Nat → AttemptResult) :
    (env 1 = AttemptResult.notFound →
      (downloadFile env).success = false ∧ (downloadFile env).attempts = 1 ∧
        (downloadFile env).sleepTime = 0) ∧
    ((env 1).transient = true → (env 2).transient = true →
      (env 3).transient = true →
      (downloadFile env).success = false ∧ (downloadFile env).attempts = 3 ∧
        (downloadFile env).sleepTime = 2 * RETRY_DELAY) ∧
    ((env 1).transient = true → (env 2).transient = true →
      env 3 = AttemptResult.okResp →
      (downloadFile env).success = true ∧ (downloadFile env).attempts = 3 ∧
        (downloadFile env).sleepTime = 2 * RETRY_DELAY) := by
  refine ⟨fun h => ?_, fun h1 h2 h3 => downloadFile_allTransient env h1 h2 h3,
    fun h1 h2 h3 => downloadFile_thirdTry env h1 h2 h3⟩
  rw [downloadFile_notFound env h]
  exact ⟨rfl, rfl, rfl⟩

theorem C2_retryAwareFetch_witness :
    (downloadFile fun i => if i ≤ 2 then AttemptResult.netFault
      else AttemptResult.okResp).success = true ∧
    (downloadFile fun i => if i ≤ 2 then AttemptResult.netFault
      else AttemptResult.okResp).attempts = 3 ∧
    (downloadFile fun i => if i ≤ 2 then AttemptResult.netFault
      else AttemptResult.okResp).sleepTime = 2 * RETRY_DELAY :=
  (C2_retryAwareFetch fun i => if i ≤ 2 then AttemptResult.netFault
    else AttemptResult.okResp).2.2 (by decide) (by decide) (by decide)

/-- C10: on a confirmed-absent (404) response, `download_file` returns
False without touching the filesystem: the destination is not written and
its parent directories are not made, because `mkdir` and the body write
happen only after the status check passes. -/
theorem C10_notFoundNoFsEffects (env : Nat → AttemptResult)
    (h : env 1 = AttemptResult.notFound) :
    downloadFile env =
      { success := false, attempts := 1, sleepTime := 0,
        mkdirCalls := 0, destWritten := false } :=
  downloadFile_notFound env h

theorem C10_notFoundNoFsEffects_witness :
    downloadFile (fun _ => AttemptResult.notFound) =
      { success := false, attempts := 1, sleepTime := 0,
        mkdirCalls := 0, destWritten := false } :=
  C10_notFoundNoFsEffects (fun _ => AttemptResult.notFound) rfl

/-- C8: adding a reciter whose id already occurs in the document's reciter
list raises the duplicate-id error and leaves the persisted document
entirely unchanged — same reciter list and same version. -/
theorem C8_duplicateAdd (db : DbJson) (r : Reciter)
    (h : r.id ∈ db.reciters.map Reciter.id) :
    add_reciter db r = Except.error (AddReciterError.duplicateId r.id) ∧
    persistedAfterAdd db r = db := by
  have hany : (db.reciters.any fun e => e.id == r.id) = true := by
    rw [List.any_eq_true]
    obtain ⟨e, he, hid⟩ := List.mem_map.mp h
    exact ⟨e, he, by simp [hid]⟩
  have ha : add_reciter db r = Except.error (AddReciterError.duplicateId r.id) := by
    simp [add_reciter, hany]
  exact ⟨ha, by simp [persistedAfterAdd, ha]⟩

theorem C8_duplicateAdd_witness :
    add_reciter sampleDb reciterDupA =
      Except.error (AddReciterError.duplicateId "a") ∧
    persistedAfterAdd sampleDb reciterDupA = sampleDb :=
  C8_duplicateAdd sampleDb reciterDupA (by decide)

/-- C9: adding a reciter whose id does not occur in the document appends
it to the reciter list (length grows by exactly one, existing entries
unchanged) and bumps the document's patch version; in particular a
document with one reciter and version "1.0.0" becomes a document with 2
reciters and version "1.0.1" (see the witness). -/
theorem C9_addFresh (db : DbJson) (r : Reciter) (v : String)
    (hfresh : r.id ∉ db.reciters.map Reciter.id)
    (hver : increment_version db.version = some v) :
    add_reciter db r =
      Except.ok { version := v, settings := db.settings,
                  reciters := db.reciters ++ [r] } ∧
    persistedAfterAdd db r =
      { version := v, settings := db.settings,
        reciters := db.reciters ++ [r] } ∧
    (persistedAfterAdd db r).reciters.length = db.reciters.length + 1 := by
  have hany : (db.reciters.any fun e => e.id == r.id) = false := by
    rw [List.any_eq_false]
    intro e he hc
    refine hfresh ?_
    rw [← beq_iff_eq.mp hc]
    exact List.mem_map_of_mem Reciter.id he
  have ha : add_reciter db r =
      Except.ok { version := v, settings := db.settings,
                  reciters := db.reciters ++ [r] } := by
    simp [add_reciter, hany, hver]
  exact ⟨ha, by simp [persistedAfterAdd, ha], by simp [persistedAfterAdd, ha]⟩

theorem C9_addFresh_witness :
    add_reciter sampleDb reciterB =
      Except.ok { version := "1.0.1", settings := sampleDb.settings,
                  reciters := sampleDb.reciters ++ [reciterB] } ∧
    persistedAfterAdd sampleDb reciterB =
      { version := "1.0.1", settings := sampleDb.settings,
        reciters := sampleDb.reciters ++ [reciterB] } ∧
    (persistedAfterAdd sampleDb reciterB).reciters.length = 2 :=
  C9_addFresh sampleDb reciterB "1.0.1" (by decide) (by decide)

/-- C1 counterexample: a reciter probed present on surahs {1,2,3} out of
range 1..5, with the two absent probes completing as 5 before 4, is
reported with present_count 3 but missing list [5, 4] — the completion
order, not the ascending-sorted [4, 5] the claim states. -/
theorem C1_counterexample :
    reciterReport (aggregateAudio
      [⟨"X", 1, ProbeOutcome.okProbe true⟩, ⟨"X", 2, ProbeOutcome.okProbe true⟩,
       ⟨"X", 3, ProbeOutcome.okProbe true⟩, ⟨"X", 5, ProbeOutcome.okProbe false⟩,
       ⟨"X", 4, ProbeOutcome.okProbe false⟩]) "X" = (3, [5, 4]) ∧
    ¬List.Sorted (· ≤ ·) ([5, 4] : List Nat) := by
  constructor
  · decide
  · decide

/-- C1 (amended): coverage aggregation. For any probe-completion order in
which each (reciter, surah) key completes at most once, a reciter's report
row carries present_count equal to the number of its probes that returned
present, and a duplicate-free missing list holding exactly its non-present
surah numbers in completion order (the code appends, it does not sort); a
reciter with zero recorded probe results is reported as
(0, list(range(1, 115))), i.e. fully missing. -/
theorem C1_coverageAggregation (events : List AudioEvent) (r : String)
    (hkeys : (events.map fun e => (e.reciter, e.surah)).Nodup) :
    ((events.any fun e => e.reciter == r) = true →
      reciterReport (aggregateAudio events) r =
        (presentCount events r, missingOf events r) ∧
      (missingOf events r).Nodup) ∧
    ((events.any fun e => e.reciter == r) = false →
      reciterReport (aggregateAudio events) r = (0, List.range' 1 114)) := by
  constructor
  · intro hany
    constructor
    · rw [reciterReport, lookupA_aggregateAudio, if_pos hany]
      rfl
    · have hinj := List.inj_on_of_nodup_map hkeys
      have hnd : events.Nodup := List.Nodup.of_map _ hkeys
      have hfnd : (events.filter fun e => e.reciter == r && !e.present).Nodup :=
        hnd.filter _
      refine List.Nodup.map_on ?_ hfnd
      intro x hx y hy hxy
      have hxr : x.reciter = r :=
        beq_iff_eq.mp (Bool.and_elim_left (List.mem_filter.mp hx).2)
      have hyr : y.reciter = r :=
        beq_iff_eq.mp (Bool.and_elim_left (List.mem_filter.mp hy).2)
      refine hinj (List.mem_of_mem_filter hx) (List.mem_of_mem_filter hy) ?_
      rw [hxr, hyr, hxy]
  · intro hnone
    rw [reciterReport, lookupA_aggregateAudio, if_neg (by simp [hnone])]
    rfl

theorem C1_coverageAggregation_witness :
    reciterReport (aggregateAudio
      [⟨"X", 4, ProbeOutcome.okProbe false⟩, ⟨"X", 5, ProbeOutcome.okProbe false⟩,
       ⟨"X", 1, ProbeOutcome.okProbe true⟩, ⟨"X", 2, ProbeOutcome.okProbe true⟩,
       ⟨"X", 3, ProbeOutcome.okProbe true⟩]) "X" = (3, [4, 5]) ∧
    ([4, 5] : List Nat).Nodup ∧
    reciterReport (aggregateAudio
      [⟨"X", 4, ProbeOutcome.okProbe false⟩, ⟨"X", 5, ProbeOutcome.okProbe false⟩,
       ⟨"X", 1, ProbeOutcome.okProbe true⟩, ⟨"X", 2, ProbeOutcome.okProbe true⟩,
       ⟨"X", 3, ProbeOutcome.okProbe true⟩]) "nobody" = (0, List.range' 1 114) := by
  have h := C1_coverageAggregation
    [⟨"X", 4, ProbeOutcome.okProbe false⟩, ⟨"X", 5, ProbeOutcome.okProbe false⟩,
     ⟨"X", 1, ProbeOutcome.okProbe true⟩, ⟨"X", 2, ProbeOutcome.okProbe true⟩,
     ⟨"X", 3, ProbeOutcome.okProbe true⟩] "X" (by decide)
  have h' := C1_coverageAggregation
    [⟨"X", 4, ProbeOutcome.okProbe false⟩, ⟨"X", 5, ProbeOutcome.okProbe false⟩,
     ⟨"X", 1, ProbeOutcome.okProbe true⟩, ⟨"X", 2, ProbeOutcome.okProbe true⟩,
     ⟨"X", 3, ProbeOutcome.okProbe true⟩] "nobody" (by decide)
  exact ⟨((h.1 (by decide)).1).trans (by decide), by decide, h'.2 (by decide)⟩

/-- C4 counterexample: two completion orders of the same two submitted
resource keys (one reciter, surahs 1 and 2, both absent) yield different
final aggregated maps (missing lists [1,2] versus [2,1]), and the map has
one entry for the two submitted keys (it is keyed per reciter). -/
theorem C4_counterexample :
    aggregateAudio [⟨"X", 1, ProbeOutcome.okProbe false⟩,
        ⟨"X", 2, ProbeOutcome.okProbe false⟩] ≠
      aggregateAudio [⟨"X", 2, ProbeOutcome.okProbe false⟩,
        ⟨"X", 1, ProbeOutcome.okProbe false⟩] ∧
    (aggregateAudio [⟨"X", 1, ProbeOutcome.okProbe false⟩,
        ⟨"X", 2, ProbeOutcome.okProbe false⟩]).length = 1 := by
  constructor
  · decide
  · decide

/-- C4 (amended): scanner permutation-invariance up to missing-list
order. For any two completion orders of the same probes and any reciter,
the reported present counts are equal and the missing lists are
permutations of each other; and every submitted key is accounted for
exactly once: the sum over the map's entries of present_count plus missing
length equals the number of probes, in either order. -/
theorem C4_permutationInvariance (L1 L2 : List AudioEvent) (r : String)
    (h : L1.Perm L2) :
    (reciterReport (aggregateAudio L1) r).1 =
      (reciterReport (aggregateAudio L2) r).1 ∧
    ((reciterReport (aggregateAudio L1) r).2).Perm
      ((reciterReport (aggregateAudio L2) r).2) ∧
    totalOutcomes (aggregateAudio L1) = L1.length ∧
    totalOutcomes (aggregateAudio L2) = L1.length := by
  have hany := any_of_perm (fun e => e.reciter == r) h
  have hpc : presentCount L1 r = presentCount L2 r :=
    (h.filter _).length_eq
  have hmo : (missingOf L1 r).Perm (missingOf L2 r) :=
    (h.filter _).map _
  have htot2 : totalOutcomes (aggregateAudio L2) = L1.length :=
    (totalOutcomes_aggregateAudio L2).trans h.length_eq.symm
  by_cases ha : (L1.any fun e => e.reciter == r) = true
  · have ha2 : (L2.any fun e => e.reciter == r) = true := hany ▸ ha
    rw [reciterReport, reciterReport, lookupA_aggregateAudio,
      lookupA_aggregateAudio, if_pos ha, if_pos ha2]
    exact ⟨hpc, hmo, totalOutcomes_aggregateAudio L1, htot2⟩
  · have ha2 : ¬(L2.any fun e => e.reciter == r) = true := fun hc =>
      ha (hany.symm ▸ hc)
    rw [reciterReport, reciterReport, lookupA_aggregateAudio,
      lookupA_aggregateAudio, if_neg ha, if_neg ha2]
    exact ⟨rfl, List.Perm.refl _, totalOutcomes_aggregateAudio L1, htot2⟩

theorem C4_permutationInvariance_witness :
    (reciterReport (aggregateAudio [⟨"X", 1, ProbeOutcome.okProbe false⟩,
        ⟨"X", 2, ProbeOutcome.okProbe false⟩]) "X").1 =
      (reciterReport (aggregateAudio [⟨"X", 2, ProbeOutcome.okProbe false⟩,
        ⟨"X", 1, ProbeOutcome.okProbe false⟩]) "X").1 ∧
    ((reciterReport (aggregateAudio [⟨"X", 1, ProbeOutcome.okProbe false⟩,
        ⟨"X", 2, ProbeOutcome.okProbe false⟩]) "X").2).Perm
      ((reciterReport (aggregateAudio [⟨"X", 2, ProbeOutcome.okProbe false⟩,
        ⟨"X", 1, ProbeOutcome.okProbe false⟩]) "X").2) ∧
    totalOutcomes (aggregateAudio [⟨"X", 1, ProbeOutcome.okProbe false⟩,
      ⟨"X", 2, ProbeOutcome.okProbe false⟩]) = 2 ∧
    totalOutcomes (aggregateAudio [⟨"X", 2, ProbeOutcome.okProbe false⟩,
      ⟨"X", 1, ProbeOutcome.okProbe false⟩]) = 2 :=
  C4_permutationInvariance
    [⟨"X", 1, ProbeOutcome.okProbe false⟩, ⟨"X", 2, ProbeOutcome.okProbe false⟩]
    [⟨"X", 2, ProbeOutcome.okProbe false⟩, ⟨"X", 1, ProbeOutcome.okProbe false⟩]
    "X" (by decide)

/-- C5: scanner fault isolation. A probe whose future raises is handled
at the per-task boundary exactly like a probe that completed absent (for
the image scan it is recorded as absent with no status code), the batch
is not aborted — the raising probe still records exactly one outcome —
and the entry of every other reciter is unchanged. -/
theorem C5_faultIsolation (m : AudioMap) (L : List AudioEvent)
    (e : AudioEvent) (r : String)
    (acc : List (String × Bool × Option Nat)) (ir : String)
    (he : e.outcome = ProbeOutcome.exc) :
    stepAudio m e = stepAudio m ⟨e.reciter, e.surah, ProbeOutcome.okProbe false⟩ ∧
    stepImage acc ⟨ir, none⟩ = acc ++ [(ir, false, none)] ∧
    (e.reciter ≠ r →
      lookupA (aggregateAudio (L ++ [e])) r = lookupA (aggregateAudio L) r) ∧
    totalOutcomes (aggregateAudio (L ++ [e])) = L.length + 1 := by
  refine ⟨?_, rfl, ?_, ?_⟩
  · exact stepAudio_congr m e _ rfl rfl (by simp [AudioEvent.present, he])
  · intro hr
    have hstep : aggregateAudio (L ++ [e]) = stepAudio (aggregateAudio L) e := by
      simp [aggregateAudio]
    rw [hstep, lookupA_stepAudio, if_neg hr]
  · rw [totalOutcomes_aggregateAudio]
    simp

theorem C5_faultIsolation_witness :
    stepAudio [] ⟨"Y", 7, ProbeOutcome.exc⟩ =
      stepAudio [] ⟨"Y", 7, ProbeOutcome.okProbe false⟩ ∧
    stepImage [] ⟨"img", none⟩ = [("img", false, none)] ∧
    lookupA (aggregateAudio ([⟨"Z", 1, ProbeOutcome.okProbe true⟩] ++
      [⟨"Y", 7, ProbeOutcome.exc⟩])) "Z" =
      lookupA (aggregateAudio [⟨"Z", 1, ProbeOutcome.okProbe true⟩]) "Z" ∧
    totalOutcomes (aggregateAudio ([⟨"Z", 1, ProbeOutcome.okProbe true⟩] ++
      [⟨"Y", 7, ProbeOutcome.exc⟩])) = 2 := by
  have h := C5_faultIsolation [] [⟨"Z", 1, ProbeOutcome.okProbe true⟩]
    ⟨"Y", 7, ProbeOutcome.exc⟩ "Z" [] "img" rfl
  exact ⟨h.1, h.2.1, h.2.2.1 (by decide), h.2.2.2⟩

/-- C3 counterexample: an item whose three download attempts all fault
mid-stream ends with outcome failure (after 3 network attempts) while its
partially-written staging file still exists — the staging file survives
past the item's lifetime, until the run-end directory removal. -/
theorem C3_counterexample :
    processItem ⟨fun _ => AttemptResult.streamFault, true⟩ =
      { succeeded := false, netCalls := 3, fileRemains := true } := by
  decide

/-- C3 (amended): staging-file lifetime. Whenever the item's download
succeeded, its staging file is removed once the item's outcome is
determined, whatever the upload outcome; a staging file can survive an
item only when the download failed after writing partial bytes; and the
run-end cleanup (`shutil.rmtree` in the `finally` block) always leaves
the staging directory gone, so no staging file survives the run. -/
theorem C3_stagingLifetime (e : ItemEnv) (dryRun wranglerOk : Bool)
    (start endS : Nat) (env : Nat → ItemEnv) (out : RunOutcome) :
    ((downloadFile e.fetch).success = true →
      (processItem e).fileRemains = false) ∧
    ((processItem e).fileRemains = true →
      (processItem e).succeeded = false ∧
      (downloadFile e.fetch).success = false ∧
      (downloadFile e.fetch).destWritten = true) ∧
    (runTransfer dryRun wranglerOk start endS env = some out →
      out.stagedAfterRun = []) := by
  refine ⟨?_, ?_, ?_⟩
  · intro h
    simp [processItem, h]
  · intro h
    by_cases hs : (downloadFile e.fetch).success = true
    · simp [processItem, hs] at h
    · simp only [Bool.not_eq_true] at hs
      refine ⟨?_, hs, ?_⟩
      · simp [processItem, hs]
      · simpa [processItem, hs] using h
  · intro hrun
    unfold runTransfer at hrun
    split at hrun
    · simp at hrun
    · split at hrun
      · simp at hrun
      · injection hrun with h'
        rw [← h']

theorem C3_stagingLifetime_witness :
    (processItem ⟨fun _ => AttemptResult.okResp, false⟩).fileRemains = false ∧
    ({ summary := ⟨3, 0, 0⟩, netCalls := 0, stagedAfterRun := [],
       exitCode := 0 } : RunOutcome).stagedAfterRun = [] := by
  have h := C3_stagingLifetime ⟨fun _ => AttemptResult.okResp, false⟩ true true 1 3
    (fun _ => ⟨fun _ => AttemptResult.okResp, true⟩)
    { summary := ⟨3, 0, 0⟩, netCalls := 0, stagedAfterRun := [], exitCode := 0 }
  exact ⟨h.1 (by decide), h.2.2 (by decide)⟩

/-- C6 counterexample: a catalog of one reciter whose image probe is
absent (status 404) but whose 114 audio probes are all present has a
missing resource (`missing_images = 1`), yet `verify` does not raise
`typer.Exit(1)`: the exit status is 0 — only missing audio drives the
non-zero exit. -/
theorem C6_counterexample :
    missingImages (aggregateImage [⟨"a", some (false, some 404)⟩]) = 1 ∧
    verifyExitCode ["a"]
      ((List.range' 1 114).map fun s => ⟨"a", s, ProbeOutcome.okProbe true⟩) = 0 := by
  constructor
  · decide
  · decide

/-- C6 (amended): non-zero exit on incompleteness. `verify` exits 1 iff
the total count of missing audio files is non-zero (missing images alone
are surfaced in the summary but do not change the exit status), and an
`upload_audio` run that completes with a non-zero failure count exits 1. -/
theorem C6_nonzeroExit (catalog : List String) (audioEvents : List AudioEvent)
    (dryRun wranglerOk : Bool) (start endS : Nat) (env : Nat → ItemEnv)
    (out : RunOutcome) :
    (totalMissing catalog audioEvents > 0 →
      verifyExitCode catalog audioEvents = 1) ∧
    (totalMissing catalog audioEvents = 0 →
      verifyExitCode catalog audioEvents = 0) ∧
    (runTransfer dryRun wranglerOk start endS env = some out →
      out.summary.fail > 0 → out.exitCode = 1) := by
  refine ⟨fun h => by simp [verifyExitCode, h], fun h => by simp [verifyExitCode, h], ?_⟩
  intro hrun hfail
  unfold runTransfer at hrun
  split at hrun
  · simp at hrun
  · split at hrun
    · simp at hrun
    · injection hrun with h'
      rw [← h'] at hfail ⊢
      simp at hfail ⊢
      omega

theorem C6_nonzeroExit_witness :
    verifyExitCode ["a"] [] = 1 ∧
    ({ summary := ⟨0, 1, 0⟩, netCalls := 1, stagedAfterRun := [],
       exitCode := 1 } : RunOutcome).exitCode = 1 := by
  have h := C6_nonzeroExit ["a"] [] false true 1 1
    (fun _ => ⟨fun _ => AttemptResult.notFound, true⟩)
    { summary := ⟨0, 1, 0⟩, netCalls := 1, stagedAfterRun := [], exitCode := 1 }
  exact ⟨h.1 (by decide), h.2.2 (by decide) (by decide)⟩

/-- C7: dry-run transfer. For every valid surah range
1 ≤ start ≤ end ≤ 114, the orchestrator with dry_run=True performs zero
network calls (no fetch, no forward-to-store) and reports
success_count = end - start + 1 and failure_count = 0, exiting 0 with an
empty staging directory. -/
theorem C7_dryRun (wranglerOk : Bool) (start endS : Nat) (env : Nat → ItemEnv)
    (h1 : 1 ≤ start) (h2 : start ≤ endS) (h3 : endS ≤ 114) :
    runTransfer true wranglerOk start endS env =
      some { summary := ⟨endS - start + 1, 0, 0⟩, netCalls := 0,
             stagedAfterRun := [], exitCode := 0 } := by
  have hcond : 1 ≤ start ∧ start ≤ 114 ∧ 1 ≤ endS ∧ endS ≤ 114 ∧ start ≤ endS :=
    ⟨h1, h2.trans h3, h1.trans h2, h3, h2⟩
  unfold runTransfer
  rw [if_neg (not_not_intro hcond), if_neg (by simp)]
  simp [runItems_dry]

theorem C7_dryRun_witness :
    runTransfer true true 1 5 (fun _ => ⟨fun _ => AttemptResult.netFault, false⟩) =
      some { summary := ⟨5, 0, 0⟩, netCalls := 0, stagedAfterRun := [],
             exitCode := 0 } :=
  C7_dryRun true 1 5 (fun _ => ⟨fun _ => AttemptResult.netFault, false⟩)
    (by decide) (by decide) (by decide)

end Qariee
